import Mathlib

/-!
Verification of the width-selection core and macro surface of the
`autosized_num` crate (src/lib.rs), shallowly embedded in Lean.

The crate picks the smallest fixed-width integer type able to represent a
given literal.  The core is two pure selection functions,
`pick_unsigned_type : u128 -> type` and `pick_signed_type : i128 -> type`,
plus six procedural-macro entry points that parse the literal, select a
type and render either the type alone or the literal cast to that type.

Embedding conventions:
* `u128` values are `Nat` (claims carry the bound `M ≤ 2^128 - 1` where it
  matters); `i128` values are `Int` with explicit range hypotheses.
* A macro's token-stream output is the inductive `Expansion`: a bare type
  (`.ty`), a literal cast to a type (`.val`), or a `compile_error!`
  invocation carrying the message string (`.compileError`).
* `lit.base10_parse::<u128>()` / `::<i128>()` succeed exactly when the
  literal's numeric value lies in the corresponding machine range, which is
  what `base10_parse_u128` / `base10_parse_i128` model.
* Rust `as` casts on integers truncate (two's complement); `IntType.castInt`
  models that with explicit `% 2^w` arithmetic.
-/

namespace AutosizedNum

/-- The ten concrete integer types the crate can emit
(`u8 … u128`, `i8 … i128`). -/
inductive IntType where
  | u8 | u16 | u32 | u64 | u128
  | i8 | i16 | i32 | i64 | i128
deriving DecidableEq, Repr

/-- Bit width of an emitted type. -/
def IntType.width : IntType → Nat
  | .u8 => 8
  | .u16 => 16
  | .u32 => 32
  | .u64 => 64
  | .u128 => 128
  | .i8 => 8
  | .i16 => 16
  | .i32 => 32
  | .i64 => 64
  | .i128 => 128

/-- Signedness tag of an emitted type. -/
def IntType.isSigned : IntType → Bool
  | .u8 => false
  | .u16 => false
  | .u32 => false
  | .u64 => false
  | .u128 => false
  | .i8 => true
  | .i16 => true
  | .i32 => true
  | .i64 => true
  | .i128 => true

/-- The ordered ladder of candidate widths, shared by both policies. -/
def ladder : List Nat := [8, 16, 32, 64, 128]

/-- `fn pick_unsigned_type(value: u128)` from src/lib.rs: the chained
comparisons against `u8::MAX`, `u16::MAX`, `u32::MAX`, `u64::MAX`, with
`u128` as the final catch-all. -/
def pick_unsigned_type (value : Nat) : IntType :=
  if value ≤ 255 then .u8
  else if value ≤ 65535 then .u16
  else if value ≤ 4294967295 then .u32
  else if value ≤ 18446744073709551615 then .u64
  else .u128

/-- `fn pick_signed_type(value: i128)` from src/lib.rs: chained two-sided
range checks against `iN::MIN ..= iN::MAX` for N = 8, 16, 32, 64, with
`i128` as the final catch-all. -/
def pick_signed_type (value : Int) : IntType :=
  if -128 ≤ value ∧ value ≤ 127 then .i8
  else if -32768 ≤ value ∧ value ≤ 32767 then .i16
  else if -2147483648 ≤ value ∧ value ≤ 2147483647 then .i32
  else if -9223372036854775808 ≤ value ∧ value ≤ 9223372036854775807 then .i64
  else .i128

/-- Output token stream of a macro invocation: a bare type designator, a
literal value cast to a type (`#value as #ty`), or a `compile_error!`
carrying a diagnostic message. -/
inductive Expansion where
  | ty (t : IntType)
  | val (v : Int) (t : IntType)
  | compileError (msg : String)
deriving DecidableEq, Repr

/-- `lit.base10_parse::<u128>()`: succeeds exactly when the literal's
numeric value fits the `u128` range. -/
def base10_parse_u128 (v : Int) : Option Nat :=
  if 0 ≤ v ∧ v ≤ 2 ^ 128 - 1 then some v.toNat else none

/-- `lit.base10_parse::<i128>()`: succeeds exactly when the literal's
numeric value fits the `i128` range. -/
def base10_parse_i128 (v : Int) : Option Int :=
  if -(2 ^ 127) ≤ v ∧ v ≤ 2 ^ 127 - 1 then some v else none

/-- The sign dispatch shared by `auto_sized_int` and `auto_sized_int_val`:
negative values go to the signed ladder, non-negative values are
reinterpreted as `u128` (`value as u128`, under the guard `value ≥ 0`)
and go to the unsigned ladder. -/
def auto_pick (value : Int) : IntType :=
  if value < 0 then pick_signed_type value else pick_unsigned_type value.toNat

/-- `auto_sized_unsigned!` entry point (src/lib.rs): parse as `u128`,
on failure emit the crate's `compile_error!`, otherwise emit the selected
type alone. -/
def auto_sized_unsigned (v : Int) : Expansion :=
  match base10_parse_u128 v with
  | some value => .ty (pick_unsigned_type value)
  | none => .compileError "auto_sized_unsign! only accepts integer literals"

/-- `auto_sized_unsigned_val!` entry point: parse as `u128`, on failure emit
`compile_error!`, otherwise emit `#value as #ty`. -/
def auto_sized_unsigned_val (v : Int) : Expansion :=
  match base10_parse_u128 v with
  | some value => .val (Int.ofNat value) (pick_unsigned_type value)
  | none => .compileError "auto_sized_unsign_val! only accepts integer literals"

/-- `auto_sized_signed!` entry point: parse as `i128`, on failure emit
`compile_error!`, otherwise emit the selected type alone. -/
def auto_sized_signed (v : Int) : Expansion :=
  match base10_parse_i128 v with
  | some value => .ty (pick_signed_type value)
  | none => .compileError "auto_sized_sign! only accepts integer literals"

/-- `auto_sized_signed_val!` entry point: parse as `i128`, on failure emit
`compile_error!`, otherwise emit `#value as #ty`. -/
def auto_sized_signed_val (v : Int) : Expansion :=
  match base10_parse_i128 v with
  | some value => .val value (pick_signed_type value)
  | none => .compileError "auto_sized_sign_val! only accepts integer literals"

/-- `auto_sized_int!` entry point: parse as `i128`, dispatch on the sign,
emit the selected type alone. -/
def auto_sized_int (v : Int) : Expansion :=
  match base10_parse_i128 v with
  | some value => .ty (auto_pick value)
  | none => .compileError "auto_sized_int! only accepts integer literals"

/-- `auto_sized_int_val!` entry point: parse as `i128`, dispatch on the
sign, emit `#value as #ty`. -/
def auto_sized_int_val (v : Int) : Expansion :=
  match base10_parse_i128 v with
  | some value => .val value (auto_pick value)
  | none => .compileError "auto_sized_int_val! only accepts integer literals"

/-- Rust `as` semantics for casting an integer value to a concrete
fixed-width integer type: truncation to the low `w` bits, reinterpreted in
two's complement when the target is signed. -/
def IntType.castInt (t : IntType) (v : Int) : Int :=
  if t.isSigned then (v + 2 ^ (t.width - 1)) % 2 ^ t.width - 2 ^ (t.width - 1)
  else v % 2 ^ t.width

/-- The type picked on the unsigned ladder, seen through its width only. -/
theorem width_pick_unsigned (M : Nat) :
    (pick_unsigned_type M).width =
      if M ≤ 255 then 8
      else if M ≤ 65535 then 16
      else if M ≤ 4294967295 then 32
      else if M ≤ 18446744073709551615 then 64
      else 128 := by
  unfold pick_unsigned_type
  split_ifs <;> rfl

/-- The type picked on the signed ladder, seen through its width only. -/
theorem width_pick_signed (V : Int) :
    (pick_signed_type V).width =
      if -128 ≤ V ∧ V ≤ 127 then 8
      else if -32768 ≤ V ∧ V ≤ 32767 then 16
      else if -2147483648 ≤ V ∧ V ≤ 2147483647 then 32
      else if -9223372036854775808 ≤ V ∧ V ≤ 9223372036854775807 then 64
      else 128 := by
  unfold pick_signed_type
  split_ifs <;> rfl

/-- The unsigned ladder only ever yields unsigned types. -/
theorem pick_unsigned_isSigned (M : Nat) :
    (pick_unsigned_type M).isSigned = false := by
  unfold pick_unsigned_type
  split_ifs <;> rfl

/-- The signed ladder only ever yields signed types. -/
theorem pick_signed_isSigned (V : Int) :
    (pick_signed_type V).isSigned = true := by
  unfold pick_signed_type
  split_ifs <;> rfl

set_option maxRecDepth 4096 in
/-- C7: the spec's concrete scenarios: unsigned 300 ↦ u16 and 200 ↦ u8;
signed −200 ↦ i16 and 200 ↦ i16; auto 10 ↦ (Unsigned, 8),
−10 ↦ (Signed, 8), 1 000 000 000 ↦ (Unsigned, 32),
−100 000 000 ↦ (Signed, 32). -/
theorem C7_concrete_scenarios :
    pick_unsigned_type 300 = .u16 ∧
    pick_unsigned_type 200 = .u8 ∧
    pick_signed_type (-200) = .i16 ∧
    pick_signed_type 200 = .i16 ∧
    auto_sized_int 10 = .ty .u8 ∧
    auto_sized_int (-10) = .ty .i8 ∧
    auto_sized_int 1000000000 = .ty .u32 ∧
    auto_sized_int (-100000000) = .ty .i32 ∧
    IntType.u8.isSigned = false ∧ IntType.i8.isSigned = true ∧
    IntType.u32.isSigned = false ∧ IntType.i32.isSigned = true := by
  decide

set_option maxRecDepth 8192 in
/-- C1: for every magnitude M ≤ 2^128 − 1 the unsigned selection returns
the smallest ladder rung W with M ≤ 2^W − 1 (the result fits and no
smaller rung fits), with the inclusive boundaries 0 ↦ 8, 255 ↦ 8,
256 ↦ 16, 65535 ↦ 16, 65536 ↦ 32, and analogously at 2^32 − 1 / 2^32,
2^64 − 1 / 2^64, and 2^128 − 1 ↦ 128. -/
theorem C1_unsigned_minimal (M : Nat) (h : M ≤ 2 ^ 128 - 1) :
    (M ≤ 2 ^ (pick_unsigned_type M).width - 1 ∧
      ∀ W ∈ ladder, M ≤ 2 ^ W - 1 → (pick_unsigned_type M).width ≤ W) ∧
    (pick_unsigned_type 0 = .u8 ∧ pick_unsigned_type 255 = .u8 ∧
     pick_unsigned_type 256 = .u16 ∧ pick_unsigned_type 65535 = .u16 ∧
     pick_unsigned_type 65536 = .u32 ∧ pick_unsigned_type (2 ^ 32 - 1) = .u32 ∧
     pick_unsigned_type (2 ^ 32) = .u64 ∧ pick_unsigned_type (2 ^ 64 - 1) = .u64 ∧
     pick_unsigned_type (2 ^ 64) = .u128 ∧
     pick_unsigned_type (2 ^ 128 - 1) = .u128) := by
  refine ⟨⟨?_, ?_⟩, by decide⟩
  · rw [width_pick_unsigned]
    split_ifs <;> norm_num <;> omega
  · intro W hW hle
    simp only [ladder, List.mem_cons, List.not_mem_nil, or_false] at hW
    rcases hW with rfl | rfl | rfl | rfl | rfl <;>
      (rw [width_pick_unsigned]; norm_num at hle ⊢; split_ifs <;> omega)

/-- C1 witness: the minimality statement instantiated at M = 300. -/
theorem C1_unsigned_minimal_witness :
    (300 ≤ 2 ^ (pick_unsigned_type 300).width - 1 ∧
      ∀ W ∈ ladder, 300 ≤ 2 ^ W - 1 → (pick_unsigned_type 300).width ≤ W) ∧
    (pick_unsigned_type 0 = .u8 ∧ pick_unsigned_type 255 = .u8 ∧
     pick_unsigned_type 256 = .u16 ∧ pick_unsigned_type 65535 = .u16 ∧
     pick_unsigned_type 65536 = .u32 ∧ pick_unsigned_type (2 ^ 32 - 1) = .u32 ∧
     pick_unsigned_type (2 ^ 32) = .u64 ∧ pick_unsigned_type (2 ^ 64 - 1) = .u64 ∧
     pick_unsigned_type (2 ^ 64) = .u128 ∧
     pick_unsigned_type (2 ^ 128 - 1) = .u128) :=
  C1_unsigned_minimal 300 (by norm_num)

set_option maxRecDepth 8192 in
/-- C2: for every signed V in [−2^127, 2^127 − 1] the signed selection
returns the smallest ladder rung W with −2^(W−1) ≤ V ≤ 2^(W−1) − 1,
preserving the two's-complement asymmetry; in particular 127 and −128
select 8 while 128 and −129 select 16, and analogously at each wider
rung. -/
theorem C2_signed_minimal (V : Int) (h1 : -(2 ^ 127) ≤ V)
    (h2 : V ≤ 2 ^ 127 - 1) :
    (-(2 ^ ((pick_signed_type V).width - 1)) ≤ V ∧
      V ≤ 2 ^ ((pick_signed_type V).width - 1) - 1 ∧
      ∀ W ∈ ladder, -(2 ^ (W - 1)) ≤ V → V ≤ 2 ^ (W - 1) - 1 →
        (pick_signed_type V).width ≤ W) ∧
    (pick_signed_type 127 = .i8 ∧ pick_signed_type (-128) = .i8 ∧
     pick_signed_type 128 = .i16 ∧ pick_signed_type (-129) = .i16 ∧
     pick_signed_type 32767 = .i16 ∧ pick_signed_type (-32768) = .i16 ∧
     pick_signed_type 32768 = .i32 ∧ pick_signed_type (-32769) = .i32 ∧
     pick_signed_type (2 ^ 31 - 1) = .i32 ∧ pick_signed_type (-(2 ^ 31)) = .i32 ∧
     pick_signed_type (2 ^ 31) = .i64 ∧ pick_signed_type (-(2 ^ 31) - 1) = .i64 ∧
     pick_signed_type (2 ^ 63 - 1) = .i64 ∧ pick_signed_type (-(2 ^ 63)) = .i64 ∧
     pick_signed_type (2 ^ 63) = .i128 ∧ pick_signed_type (-(2 ^ 63) - 1) = .i128 ∧
     pick_signed_type (2 ^ 127 - 1) = .i128 ∧
     pick_signed_type (-(2 ^ 127)) = .i128) := by
  refine ⟨⟨?_, ?_, ?_⟩, by decide⟩
  · rw [width_pick_signed]
    split_ifs <;> norm_num <;> omega
  · rw [width_pick_signed]
    split_ifs <;> norm_num <;> omega
  · intro W hW hlo hhi
    simp only [ladder, List.mem_cons, List.not_mem_nil, or_false] at hW
    rcases hW with rfl | rfl | rfl | rfl | rfl <;>
      (rw [width_pick_signed]; norm_num at hlo hhi ⊢; split_ifs <;> omega)

/-- C2 witness: the minimality statement instantiated at V = −200. -/
theorem C2_signed_minimal_witness :
    (-(2 ^ ((pick_signed_type (-200)).width - 1)) ≤ (-200 : Int) ∧
      (-200 : Int) ≤ 2 ^ ((pick_signed_type (-200)).width - 1) - 1 ∧
      ∀ W ∈ ladder, -(2 ^ (W - 1)) ≤ (-200 : Int) →
        (-200 : Int) ≤ 2 ^ (W - 1) - 1 →
        (pick_signed_type (-200)).width ≤ W) ∧
    (pick_signed_type 127 = .i8 ∧ pick_signed_type (-128) = .i8 ∧
     pick_signed_type 128 = .i16 ∧ pick_signed_type (-129) = .i16 ∧
     pick_signed_type 32767 = .i16 ∧ pick_signed_type (-32768) = .i16 ∧
     pick_signed_type 32768 = .i32 ∧ pick_signed_type (-32769) = .i32 ∧
     pick_signed_type (2 ^ 31 - 1) = .i32 ∧ pick_signed_type (-(2 ^ 31)) = .i32 ∧
     pick_signed_type (2 ^ 31) = .i64 ∧ pick_signed_type (-(2 ^ 31) - 1) = .i64 ∧
     pick_signed_type (2 ^ 63 - 1) = .i64 ∧ pick_signed_type (-(2 ^ 63)) = .i64 ∧
     pick_signed_type (2 ^ 63) = .i128 ∧ pick_signed_type (-(2 ^ 63) - 1) = .i128 ∧
     pick_signed_type (2 ^ 127 - 1) = .i128 ∧
     pick_signed_type (-(2 ^ 127)) = .i128) :=
  C2_signed_minimal (-200) (by norm_num) (by norm_num)

/-- C4 as stated fails on the signed policy: −200 ≤ 0 in the signed
domain, yet the selected width for −200 is 16 while the width for 0
is 8. -/
theorem C4_counterexample :
    (-200 : Int) ≤ 0 ∧
      ¬ (pick_signed_type (-200)).width ≤ (pick_signed_type 0).width := by
  decide

/-- C4 amended: the unsigned selection is monotone in the input order,
and the signed selection is monotone in the two's-complement magnitude
max(V, −1 − V) rather than in the signed order itself. -/
theorem C4_amended_monotone :
    (∀ M1 M2 : Nat, M1 ≤ M2 →
        (pick_unsigned_type M1).width ≤ (pick_unsigned_type M2).width) ∧
    (∀ V1 V2 : Int, max V1 (-1 - V1) ≤ max V2 (-1 - V2) →
        (pick_signed_type V1).width ≤ (pick_signed_type V2).width) := by
  constructor
  · intro M1 M2 hle
    rw [width_pick_unsigned, width_pick_unsigned]
    split_ifs <;> omega
  · intro V1 V2 hle
    rw [width_pick_signed, width_pick_signed]
    split_ifs <;> omega

/-- C4 witness: concrete instances of both amended monotonicity clauses. -/
theorem C4_amended_monotone_witness :
    (pick_unsigned_type 200).width ≤ (pick_unsigned_type 300).width ∧
    (pick_signed_type (-10)).width ≤ (pick_signed_type (-200)).width :=
  ⟨C4_amended_monotone.1 200 300 (by norm_num),
   C4_amended_monotone.2 (-10) (-200) (by decide)⟩

/-- C5: both selectors are total — on every input they return one of the
five rungs of their ladder, and the final 128-bit rung is a catch-all:
every magnitude above u64::MAX maps to u128 and every value outside the
i64 range maps to i128. -/
theorem C5_totality :
    (∀ M : Nat, pick_unsigned_type M ∈
        [IntType.u8, IntType.u16, IntType.u32, IntType.u64, IntType.u128]) ∧
    (∀ V : Int, pick_signed_type V ∈
        [IntType.i8, IntType.i16, IntType.i32, IntType.i64, IntType.i128]) ∧
    (∀ M : Nat, 2 ^ 64 ≤ M → pick_unsigned_type M = .u128) ∧
    (∀ V : Int, V < -(2 ^ 63) ∨ 2 ^ 63 ≤ V → pick_signed_type V = .i128) := by
  refine ⟨?_, ?_, ?_, ?_⟩
  · intro M
    unfold pick_unsigned_type
    split_ifs <;> simp
  · intro V
    unfold pick_signed_type
    split_ifs <;> simp
  · intro M hM
    have h64 : (2 : ℕ) ^ 64 = 18446744073709551616 := by norm_num
    rw [h64] at hM
    unfold pick_unsigned_type
    split_ifs <;> first | rfl | omega
  · intro V hV
    have h63 : (2 : ℤ) ^ 63 = 9223372036854775808 := by norm_num
    rw [h63] at hV
    unfold pick_signed_type
    split_ifs <;> first | rfl | omega

/-- C5 witness: totality and catch-all instantiated at concrete inputs. -/
theorem C5_totality_witness :
    pick_unsigned_type 5 ∈
        [IntType.u8, IntType.u16, IntType.u32, IntType.u64, IntType.u128] ∧
    pick_signed_type (-5) ∈
        [IntType.i8, IntType.i16, IntType.i32, IntType.i64, IntType.i128] ∧
    pick_unsigned_type (2 ^ 64) = .u128 ∧
    pick_signed_type (2 ^ 63) = .i128 :=
  ⟨C5_totality.1 5, C5_totality.2.1 (-5), C5_totality.2.2.1 _ le_rfl,
   C5_totality.2.2.2 _ (Or.inr le_rfl)⟩

set_option maxRecDepth 8192 in
/-- Casting a value in the u128 domain to the unsigned type picked for it
is the identity: the selected rung's range always contains the value. -/
theorem castInt_pick_unsigned (v : Int) (h0 : 0 ≤ v) (h1 : v ≤ 2 ^ 128 - 1) :
    (pick_unsigned_type v.toNat).castInt v = v := by
  unfold pick_unsigned_type
  split_ifs <;> simp only [IntType.castInt, IntType.isSigned, IntType.width,
    Bool.false_eq_true, if_false] <;> omega

set_option maxRecDepth 8192 in
/-- Casting a value in the i128 domain to the signed type picked for it is
the identity: the selected rung's range always contains the value. -/
theorem castInt_pick_signed (v : Int) (h0 : -(2 ^ 127) ≤ v)
    (h1 : v ≤ 2 ^ 127 - 1) :
    (pick_signed_type v).castInt v = v := by
  unfold pick_signed_type
  split_ifs <;> simp only [IntType.castInt, IntType.isSigned, IntType.width,
    if_true] <;> omega

set_option maxRecDepth 8192 in
/-- C3: for every V in the i128 domain, auto mode returns exactly the
signed policy's choice (a signed type) when V < 0, and exactly the
unsigned policy's choice (an unsigned type) on the value reinterpreted as
an unsigned magnitude when V ≥ 0, in both the type and the value entry
points. -/
theorem C3_auto_dispatch (V : Int) (h1 : -(2 ^ 127) ≤ V)
    (h2 : V ≤ 2 ^ 127 - 1) :
    auto_sized_int V = .ty (auto_pick V) ∧
    auto_sized_int_val V = .val V (auto_pick V) ∧
    (V < 0 → auto_pick V = pick_signed_type V ∧
      (auto_pick V).isSigned = true) ∧
    (0 ≤ V → auto_pick V = pick_unsigned_type V.toNat ∧
      (auto_pick V).isSigned = false ∧ (V.toNat : Int) = V) := by
  have hp : base10_parse_i128 V = some V := by
    unfold base10_parse_i128
    rw [if_pos ⟨h1, h2⟩]
  refine ⟨by simp [auto_sized_int, hp], by simp [auto_sized_int_val, hp],
    ?_, ?_⟩
  · intro hneg
    unfold auto_pick
    rw [if_pos hneg]
    exact ⟨rfl, pick_signed_isSigned V⟩
  · intro hnn
    unfold auto_pick
    rw [if_neg (not_lt.mpr hnn)]
    exact ⟨rfl, pick_unsigned_isSigned _, Int.toNat_of_nonneg hnn⟩

/-- C3 witness: the dispatch statement instantiated at V = −10. -/
theorem C3_auto_dispatch_witness :
    auto_sized_int (-10) = .ty (auto_pick (-10)) ∧
    auto_sized_int_val (-10) = .val (-10) (auto_pick (-10)) ∧
    ((-10 : Int) < 0 → auto_pick (-10) = pick_signed_type (-10) ∧
      (auto_pick (-10)).isSigned = true) ∧
    ((0 : Int) ≤ -10 → auto_pick (-10) = pick_unsigned_type (-10 : Int).toNat ∧
      (auto_pick (-10)).isSigned = false ∧ (((-10 : Int).toNat : Int) = -10)) :=
  C3_auto_dispatch (-10) (by norm_num) (by norm_num)

set_option maxRecDepth 8192 in
/-- C6: a literal outside the relevant parse domain (u128 for the
unsigned entry points, i128 for the signed and auto entry points) is
rejected with a compile_error! carrying that entry point's own
diagnostic, no type or value being emitted; the six diagnostics are
pairwise distinct, so the message identifies the rejecting entry
point. -/
theorem C6_parse_rejection :
    (∀ v : Int, ¬ (0 ≤ v ∧ v ≤ 2 ^ 128 - 1) →
      auto_sized_unsigned v =
          .compileError "auto_sized_unsign! only accepts integer literals" ∧
        auto_sized_unsigned_val v =
          .compileError "auto_sized_unsign_val! only accepts integer literals") ∧
    (∀ v : Int, ¬ (-(2 ^ 127) ≤ v ∧ v ≤ 2 ^ 127 - 1) →
      auto_sized_signed v =
          .compileError "auto_sized_sign! only accepts integer literals" ∧
        auto_sized_signed_val v =
          .compileError "auto_sized_sign_val! only accepts integer literals" ∧
        auto_sized_int v =
          .compileError "auto_sized_int! only accepts integer literals" ∧
        auto_sized_int_val v =
          .compileError "auto_sized_int_val! only accepts integer literals") ∧
    ["auto_sized_unsign! only accepts integer literals",
     "auto_sized_unsign_val! only accepts integer literals",
     "auto_sized_sign! only accepts integer literals",
     "auto_sized_sign_val! only accepts integer literals",
     "auto_sized_int! only accepts integer literals",
     "auto_sized_int_val! only accepts integer literals"].Pairwise (· ≠ ·) := by
  refine ⟨?_, ?_, by decide⟩
  · intro v hv
    have hp : base10_parse_u128 v = none := by
      unfold base10_parse_u128
      rw [if_neg hv]
    exact ⟨by simp [auto_sized_unsigned, hp],
      by simp [auto_sized_unsigned_val, hp]⟩
  · intro v hv
    have hp : base10_parse_i128 v = none := by
      unfold base10_parse_i128
      rw [if_neg hv]
    exact ⟨by simp [auto_sized_signed, hp],
      by simp [auto_sized_signed_val, hp],
      by simp [auto_sized_int, hp],
      by simp [auto_sized_int_val, hp]⟩

/-- C6 witness: rejection at the out-of-domain literals −1 (unsigned
entry points) and 2^127 (signed and auto entry points). -/
theorem C6_parse_rejection_witness :
    (auto_sized_unsigned (-1) =
        .compileError "auto_sized_unsign! only accepts integer literals" ∧
      auto_sized_unsigned_val (-1) =
        .compileError "auto_sized_unsign_val! only accepts integer literals") ∧
    (auto_sized_signed (2 ^ 127) =
        .compileError "auto_sized_sign! only accepts integer literals" ∧
      auto_sized_signed_val (2 ^ 127) =
        .compileError "auto_sized_sign_val! only accepts integer literals" ∧
      auto_sized_int (2 ^ 127) =
        .compileError "auto_sized_int! only accepts integer literals" ∧
      auto_sized_int_val (2 ^ 127) =
        .compileError "auto_sized_int_val! only accepts integer literals") :=
  ⟨C6_parse_rejection.1 (-1) (by norm_num),
   C6_parse_rejection.2.1 (2 ^ 127) (by norm_num)⟩

set_option maxRecDepth 8192 in
/-- C8: the value entry points emit the original literal paired with the
selected descriptor as a cast expression, while the type entry points
emit the same descriptor alone; the descriptor is computed by the
selector in both modes. -/
theorem C8_rendering (v : Int) :
    (0 ≤ v → v ≤ 2 ^ 128 - 1 →
      auto_sized_unsigned v = .ty (pick_unsigned_type v.toNat) ∧
      auto_sized_unsigned_val v = .val v (pick_unsigned_type v.toNat)) ∧
    (-(2 ^ 127) ≤ v → v ≤ 2 ^ 127 - 1 →
      auto_sized_signed v = .ty (pick_signed_type v) ∧
      auto_sized_signed_val v = .val v (pick_signed_type v) ∧
      auto_sized_int v = .ty (auto_pick v) ∧
      auto_sized_int_val v = .val v (auto_pick v)) := by
  constructor
  · intro h0 h1
    have hp : base10_parse_u128 v = some v.toNat := by
      unfold base10_parse_u128
      rw [if_pos ⟨h0, h1⟩]
    exact ⟨by simp [auto_sized_unsigned, hp],
      by simp [auto_sized_unsigned_val, hp, Int.toNat_of_nonneg h0]⟩
  · intro h0 h1
    have hp : base10_parse_i128 v = some v := by
      unfold base10_parse_i128
      rw [if_pos ⟨h0, h1⟩]
    exact ⟨by simp [auto_sized_signed, hp],
      by simp [auto_sized_signed_val, hp],
      by simp [auto_sized_int, hp],
      by simp [auto_sized_int_val, hp]⟩

/-- C8 witness: the rendering statement instantiated at v = 300. -/
theorem C8_rendering_witness :
    ((0 : Int) ≤ 300 → (300 : Int) ≤ 2 ^ 128 - 1 →
      auto_sized_unsigned 300 = .ty (pick_unsigned_type (300 : Int).toNat) ∧
      auto_sized_unsigned_val 300 = .val 300 (pick_unsigned_type (300 : Int).toNat)) ∧
    (-(2 ^ 127) ≤ (300 : Int) → (300 : Int) ≤ 2 ^ 127 - 1 →
      auto_sized_signed 300 = .ty (pick_signed_type 300) ∧
      auto_sized_signed_val 300 = .val 300 (pick_signed_type 300) ∧
      auto_sized_int 300 = .ty (auto_pick 300) ∧
      auto_sized_int_val 300 = .val 300 (auto_pick 300)) :=
  C8_rendering 300

/-- C9: determinism — each selector is a pure function of its input:
equal inputs always yield equal descriptors for the unsigned, signed and
auto policies, and for the auto entry points. -/
theorem C9_deterministic (m1 m2 : Nat) (v1 v2 : Int) :
    (m1 = m2 → pick_unsigned_type m1 = pick_unsigned_type m2) ∧
    (v1 = v2 → pick_signed_type v1 = pick_signed_type v2) ∧
    (v1 = v2 → auto_pick v1 = auto_pick v2 ∧
      auto_sized_int v1 = auto_sized_int v2 ∧
      auto_sized_int_val v1 = auto_sized_int_val v2) :=
  ⟨fun h => by rw [h], fun h => by rw [h],
   fun h => ⟨by rw [h], by rw [h], by rw [h]⟩⟩

/-- C9 witness: determinism instantiated at concrete inputs. -/
theorem C9_deterministic_witness :
    pick_unsigned_type 3 = pick_unsigned_type 3 ∧
    pick_signed_type (-5) = pick_signed_type (-5) ∧
    auto_pick (-5) = auto_pick (-5) :=
  ⟨(C9_deterministic 3 3 (-5) (-5)).1 rfl,
   (C9_deterministic 3 3 (-5) (-5)).2.1 rfl,
   ((C9_deterministic 3 3 (-5) (-5)).2.2 rfl).1⟩

set_option maxRecDepth 8192 in
/-- C10: in auto mode the i128→u128 reinterpretation happens only under
the non-negativity guard and is value-preserving, and the value emitted
by each value entry point, cast with Rust `as` semantics to the selected
minimal type, equals the input value. -/
theorem C10_value_preserving (v : Int) (h0 : -(2 ^ 127) ≤ v)
    (h1 : v ≤ 2 ^ 127 - 1) :
    (0 ≤ v → (v.toNat : Int) = v) ∧
    auto_sized_int_val v = .val v (auto_pick v) ∧
    (auto_pick v).castInt v = v ∧
    (pick_signed_type v).castInt v = v ∧
    (0 ≤ v → (pick_unsigned_type v.toNat).castInt v = v) := by
  have hp : base10_parse_i128 v = some v := by
    unfold base10_parse_i128
    rw [if_pos ⟨h0, h1⟩]
  have hu : ∀ h : 0 ≤ v, (pick_unsigned_type v.toNat).castInt v = v :=
    fun h => castInt_pick_unsigned v h (le_trans h1 (by norm_num))
  refine ⟨fun h => Int.toNat_of_nonneg h, by simp [auto_sized_int_val, hp],
    ?_, castInt_pick_signed v h0 h1, hu⟩
  unfold auto_pick
  split_ifs with hv
  · exact castInt_pick_signed v h0 h1
  · exact hu (not_lt.mp hv)

/-- C10 witness: value preservation instantiated at v = 10. -/
theorem C10_value_preserving_witness :
    ((0 : Int) ≤ 10 → (((10 : Int).toNat : Int) = 10)) ∧
    auto_sized_int_val 10 = .val 10 (auto_pick 10) ∧
    (auto_pick 10).castInt 10 = 10 ∧
    (pick_signed_type 10).castInt 10 = 10 ∧
    ((0 : Int) ≤ 10 → (pick_unsigned_type (10 : Int).toNat).castInt 10 = 10) :=
  C10_value_preserving 10 (by norm_num) (by norm_num)

end AutosizedNum
